import Mathlib

/-!
Verification of the financial metrics derivation engine of a company
financial-statements CRUD backend.

Shallow embedding choices:
* Python floats are modelled as rationals (`ℚ`); `round(x, 2)` is modelled
  as round-half-to-even at two decimal places over `ℚ`.
* Nullable columns and `Optional` request fields are `Option ℚ` / `Option String`.
* The `financial_data` table is a list of rows; SQLAlchemy's in-place row
  update is modelled by replacing the row with the matching primary key `id`.
* Python truthiness of a nullable float (`if x:`) is `x` non-null and non-zero.

The definitions follow `routers/financial.py` and `models.py`.
-/

namespace FinancialAnalysis

/-- Python truthiness of a nullable float: `None` and `0.0` are falsy. -/
def truthy (o : Option ℚ) : Bool :=
  match o with
  | none => false
  | some x => decide (x ≠ 0)

/-- Value of a decimal digit string, or `none` when empty or containing a
non-digit character. -/
def digitsToNat : List Char → Option Nat
  | [] => none
  | cs =>
    if cs.all Char.isDigit then
      some (cs.foldl (fun n c => 10 * n + (c.toNat - 48)) 0)
    else none

/-- Model of Python `int(s)` on year strings: an optional sign followed by a
non-empty run of decimal digits. -/
def pyInt? (s : String) : Option Int :=
  match s.data with
  | '-' :: rest => (digitsToNat rest).map (fun n => -(n : Int))
  | '+' :: rest => (digitsToNat rest).map (fun n => (n : Int))
  | cs => (digitsToNat cs).map (fun n => (n : Int))

/-- Round to the nearest integer, ties to even (Python `round` semantics). -/
def roundHalfEven (q : ℚ) : Int :=
  if q - ⌊q⌋ < 1 / 2 then ⌊q⌋
  else if 1 / 2 < q - ⌊q⌋ then ⌊q⌋ + 1
  else if ⌊q⌋ % 2 = 0 then ⌊q⌋ else ⌊q⌋ + 1

/-- Python `round(x, 2)` modelled over the rationals. -/
def pyRound2 (q : ℚ) : ℚ := (roundHalfEven (q * 100) : ℚ) / 100

/-- The year-over-year helper defined identically at its three occurrences in
`routers/financial.py` (inside `calculate_financial_metrics`,
`create_financial_data` and `update_financial_data`):

    def calc_percent_change(current, previous):
        if previous and previous != 0:
            return round((current - previous) / abs(previous) * 100, 2)
        return None

`previous` truthy means non-null and non-zero, so the division is guarded. -/
def calc_percent_change (current : ℚ) (previous : Option ℚ) : Option ℚ :=
  match previous with
  | none => none
  | some p =>
    if p ≠ 0 then some (pyRound2 ((current - p) / |p| * 100)) else none

/-- A row of the `financial_data` table (`models.py`, class `FinancialData`).
`NOT NULL` columns are plain `ℚ`, nullable ones are `Option ℚ`. -/
structure FinancialData where
  id : Nat
  company_id : Nat
  fiscal_year : String
  prepared_by : Option String
  notes : Option String
  total_revenue : ℚ
  revenue_yoy_change : Option ℚ
  gross_profit : ℚ
  gross_profit_margin : Option ℚ
  gross_profit_yoy_change : Option ℚ
  operating_profit : ℚ
  operating_profit_margin : Option ℚ
  operating_profit_yoy_change : Option ℚ
  net_profit : ℚ
  net_profit_margin : Option ℚ
  net_profit_yoy_change : Option ℚ
  number_of_shares : ℚ
  price_high : ℚ
  price_low : ℚ
  eps : ℚ
  earning_power : Option ℚ
  free_cash_flow : ℚ
  free_cash_flow_yoy_change : Option ℚ
  return_on_equity : Option ℚ
  return_on_assets : Option ℚ
  return_on_invested_capital : Option ℚ
  book_value : Option ℚ
  book_value_per_share : Option ℚ
  book_value_yoy_change : Option ℚ
  current_ratio : Option ℚ
  total_assets : Option ℚ
  total_liabilities : Option ℚ
  shareholders_equity : Option ℚ
  current_assets : Option ℚ
  current_liabilities : Option ℚ
  dividends_per_share : ℚ
  dividend_rate : ℚ
deriving Repr, DecidableEq

/-- The request body `FinancialDataCreate` (= `FinancialDataBase`) of
`routers/financial.py`. -/
structure FinancialDataCreate where
  fiscal_year : String
  prepared_by : Option String
  notes : Option String
  total_revenue : ℚ
  gross_profit : ℚ
  gross_profit_margin : Option ℚ
  operating_profit : ℚ
  operating_profit_margin : Option ℚ
  net_profit : ℚ
  net_profit_margin : Option ℚ
  number_of_shares : ℚ
  eps : ℚ
  price_high : ℚ
  price_low : ℚ
  earning_power : Option ℚ
  free_cash_flow : ℚ
  return_on_equity : Option ℚ
  return_on_assets : Option ℚ
  return_on_invested_capital : Option ℚ
  book_value : Option ℚ
  book_value_per_share : Option ℚ
  current_ratio : Option ℚ
  dividends_per_share : ℚ
  dividend_rate : ℚ
deriving Repr, DecidableEq

/-- The `yoy` dictionary of a dashboard metric (fixed key set). -/
structure YoyMap where
  revenue : Option ℚ
  gross_profit : Option ℚ
  operating_profit : Option ℚ
  net_profit : Option ℚ
  free_cash_flow : Option ℚ
  book_value : Option ℚ
  roa : Option ℚ
  roe : Option ℚ
deriving Repr, DecidableEq

/-- One entry of the dashboard `metrics` list (`FinancialMetric`). -/
structure FinancialMetric where
  year : String
  revenue : ℚ
  revenue_yoy_change : Option ℚ
  gross_profit : ℚ
  gross_profit_margin : Option ℚ
  gross_profit_yoy_change : Option ℚ
  operating_profit : ℚ
  operating_profit_margin : Option ℚ
  operating_profit_yoy_change : Option ℚ
  net_profit : ℚ
  net_profit_margin : Option ℚ
  net_profit_yoy_change : Option ℚ
  free_cash_flow : ℚ
  free_cash_flow_yoy_change : Option ℚ
  number_of_shares : ℚ
  return_on_equity : Option ℚ
  return_on_assets : Option ℚ
  return_on_invested_capital : Option ℚ
  book_value : Option ℚ
  book_value_per_share : Option ℚ
  book_value_yoy_change : Option ℚ
  current_ratio : Option ℚ
  eps : Option ℚ
  price_high : Option ℚ
  price_low : Option ℚ
  earning_power : Option ℚ
  dividends_per_share : Option ℚ
  dividend_rate : Option ℚ
  yoy : YoyMap
deriving Repr, DecidableEq

/-- The dashboard response body. -/
structure DashboardResponse where
  company : String
  metrics : List FinancialMetric
deriving Repr, DecidableEq

/-! ## Input validation (`FinancialDataBase`) -/

/-- The `validate_fiscal_year` field validator: `int(v)` must succeed and the
year must lie in 1900..2100; both failure branches raise `ValueError`, which
pydantic surfaces as a validation error. Returns `true` when valid. -/
def validate_fiscal_year (v : String) : Bool :=
  match pyInt? v with
  | none => false
  | some year => decide (1900 ≤ year) && decide (year ≤ 2100)

/-- Full request validation: the fiscal-year validator plus the
`Field(..., gt=0)` constraints on `total_revenue` and `number_of_shares`. -/
def validateFinancialData (input : FinancialDataCreate) : Bool :=
  validate_fiscal_year input.fiscal_year
    && decide (input.total_revenue > 0)
    && decide (input.number_of_shares > 0)

/-! ## Write-path derivation (`create_financial_data` / `update_financial_data`) -/

/-- The fields the write path computes before persisting. -/
structure DerivedFields where
  gross_profit_margin : Option ℚ
  operating_profit_margin : Option ℚ
  net_profit_margin : Option ℚ
  revenue_yoy_change : Option ℚ
  gross_profit_yoy_change : Option ℚ
  operating_profit_yoy_change : Option ℚ
  net_profit_yoy_change : Option ℚ
  free_cash_flow_yoy_change : Option ℚ
  book_value_yoy_change : Option ℚ
deriving Repr, DecidableEq

/-- The derivation block shared (textually duplicated) by
`create_financial_data` and `update_financial_data`: margins when
`total_revenue > 0`, and YoY changes only when a previous-year row exists
(book-value YoY additionally needs both book values non-null). -/
def deriveOnWrite (input : FinancialDataCreate) (previous : Option FinancialData) :
    DerivedFields :=
  let gpm := if input.total_revenue > 0
    then some (input.gross_profit / input.total_revenue) else none
  let opm := if input.total_revenue > 0
    then some (input.operating_profit / input.total_revenue) else none
  let npm := if input.total_revenue > 0
    then some (input.net_profit / input.total_revenue) else none
  match previous with
  | none =>
    { gross_profit_margin := gpm, operating_profit_margin := opm,
      net_profit_margin := npm,
      revenue_yoy_change := none, gross_profit_yoy_change := none,
      operating_profit_yoy_change := none, net_profit_yoy_change := none,
      free_cash_flow_yoy_change := none, book_value_yoy_change := none }
  | some prev =>
    { gross_profit_margin := gpm, operating_profit_margin := opm,
      net_profit_margin := npm,
      revenue_yoy_change :=
        calc_percent_change input.total_revenue (some prev.total_revenue),
      gross_profit_yoy_change :=
        calc_percent_change input.gross_profit (some prev.gross_profit),
      operating_profit_yoy_change :=
        calc_percent_change input.operating_profit (some prev.operating_profit),
      net_profit_yoy_change :=
        calc_percent_change input.net_profit (some prev.net_profit),
      free_cash_flow_yoy_change :=
        calc_percent_change input.free_cash_flow (some prev.free_cash_flow),
      book_value_yoy_change :=
        match input.book_value, prev.book_value with
        | some bv, some pbv => calc_percent_change bv (some pbv)
        | _, _ => none }

/-! ## The record store -/

/-- The `financial_data` table. -/
abbrev Store := List FinancialData

/-- The row predicate of the uniqueness key: same company, same fiscal year. -/
def keyMatch (cid : Nat) (fy : String) (r : FinancialData) : Bool :=
  r.company_id == cid && r.fiscal_year == fy

/-- `db.query(FinancialData).filter(company_id == cid, fiscal_year == fy).first()`. -/
def findRecord (s : Store) (cid : Nat) (fy : String) : Option FinancialData :=
  s.find? (keyMatch cid fy)

/-- Number of rows of the table holding the given uniqueness key. -/
def keyCount (s : Store) (cid : Nat) (fy : String) : Nat :=
  (s.filter (keyMatch cid fy)).length

/-- The previous fiscal-year key `str(int(fiscal_year) - 1)`; `none` models the
(unreachable on validated input) case where `int()` raises. -/
def previousYearKey (fy : String) : Option String :=
  (pyInt? fy).map (fun y => toString (y - 1))

/-- The write path's previous-year lookup: same company, fiscal year equal to
the literal string `str(int(fiscal_year) - 1)`. -/
def lookupPreviousData (s : Store) (cid : Nat) (fy : String) : Option FinancialData :=
  match previousYearKey fy with
  | none => none
  | some py => findRecord s cid py

/-- The `setattr` loop copying every field of `financial_data.dict()` onto a
row; on the update endpoint the `fiscal_year` key is skipped. -/
def setBaseFields (r : FinancialData) (input : FinancialDataCreate)
    (skipFiscalYear : Bool) : FinancialData :=
  { r with
    fiscal_year := if skipFiscalYear then r.fiscal_year else input.fiscal_year,
    prepared_by := input.prepared_by,
    notes := input.notes,
    total_revenue := input.total_revenue,
    gross_profit := input.gross_profit,
    gross_profit_margin := input.gross_profit_margin,
    operating_profit := input.operating_profit,
    operating_profit_margin := input.operating_profit_margin,
    net_profit := input.net_profit,
    net_profit_margin := input.net_profit_margin,
    number_of_shares := input.number_of_shares,
    eps := input.eps,
    price_high := input.price_high,
    price_low := input.price_low,
    earning_power := input.earning_power,
    free_cash_flow := input.free_cash_flow,
    return_on_equity := input.return_on_equity,
    return_on_assets := input.return_on_assets,
    return_on_invested_capital := input.return_on_invested_capital,
    book_value := input.book_value,
    book_value_per_share := input.book_value_per_share,
    current_ratio := input.current_ratio,
    dividends_per_share := input.dividends_per_share,
    dividend_rate := input.dividend_rate }

/-- The block assigning the calculated margin and YoY fields onto a row. -/
def setDerivedFields (r : FinancialData) (d : DerivedFields) : FinancialData :=
  { r with
    gross_profit_margin := d.gross_profit_margin,
    operating_profit_margin := d.operating_profit_margin,
    net_profit_margin := d.net_profit_margin,
    revenue_yoy_change := d.revenue_yoy_change,
    gross_profit_yoy_change := d.gross_profit_yoy_change,
    operating_profit_yoy_change := d.operating_profit_yoy_change,
    net_profit_yoy_change := d.net_profit_yoy_change,
    free_cash_flow_yoy_change := d.free_cash_flow_yoy_change,
    book_value_yoy_change := d.book_value_yoy_change }

/-- The `FinancialData(...)` constructor call of the create endpoint's
new-record branch; legacy columns are left at their default `NULL`. -/
def newRecordFromInput (freshId : Nat) (cid : Nat) (input : FinancialDataCreate)
    (d : DerivedFields) : FinancialData :=
  { id := freshId,
    company_id := cid,
    fiscal_year := input.fiscal_year,
    prepared_by := input.prepared_by,
    notes := input.notes,
    total_revenue := input.total_revenue,
    revenue_yoy_change := d.revenue_yoy_change,
    gross_profit := input.gross_profit,
    gross_profit_margin := d.gross_profit_margin,
    gross_profit_yoy_change := d.gross_profit_yoy_change,
    operating_profit := input.operating_profit,
    operating_profit_margin := d.operating_profit_margin,
    operating_profit_yoy_change := d.operating_profit_yoy_change,
    net_profit := input.net_profit,
    net_profit_margin := d.net_profit_margin,
    net_profit_yoy_change := d.net_profit_yoy_change,
    number_of_shares := input.number_of_shares,
    price_high := input.price_high,
    price_low := input.price_low,
    eps := input.eps,
    earning_power := input.earning_power,
    free_cash_flow := input.free_cash_flow,
    free_cash_flow_yoy_change := d.free_cash_flow_yoy_change,
    return_on_equity := input.return_on_equity,
    return_on_assets := input.return_on_assets,
    return_on_invested_capital := input.return_on_invested_capital,
    book_value := input.book_value,
    book_value_per_share := input.book_value_per_share,
    book_value_yoy_change := d.book_value_yoy_change,
    current_ratio := input.current_ratio,
    total_assets := none,
    total_liabilities := none,
    shareholders_equity := none,
    current_assets := none,
    current_liabilities := none,
    dividends_per_share := input.dividends_per_share,
    dividend_rate := input.dividend_rate }

/-- `POST /companies/{cid}/financial-data/` on a validated request body:
derives margins and YoY (previous-year lookup by literal year string), then
either updates the existing row for `(cid, fiscal_year)` in place or inserts a
new row with a fresh primary key. Returns the new table and the persisted row. -/
def create_financial_data (s : Store) (cid : Nat) (input : FinancialDataCreate)
    (freshId : Nat) : Store × FinancialData :=
  let derived := deriveOnWrite input (lookupPreviousData s cid input.fiscal_year)
  match findRecord s cid input.fiscal_year with
  | some existing =>
    let updated := setDerivedFields (setBaseFields existing input false) derived
    (s.map (fun r => if r.id == existing.id then updated else r), updated)
  | none =>
    let newRec := newRecordFromInput freshId cid input derived
    (s ++ [newRec], newRec)

/-- `PUT /companies/{cid}/financial-data/{fy}` on a validated body: `none`
models the 404 when no row matches; otherwise the row is updated in place,
with the `fiscal_year` key skipped in the copy loop and the previous-year
lookup keyed on the path parameter. -/
def update_financial_data (s : Store) (cid : Nat) (fy : String)
    (input : FinancialDataCreate) : Option (Store × FinancialData) :=
  match findRecord s cid fy with
  | none => none
  | some dbRec =>
    let derived := deriveOnWrite input (lookupPreviousData s cid fy)
    let updated := setDerivedFields (setBaseFields dbRec input true) derived
    some (s.map (fun r => if r.id == dbRec.id then updated else r), updated)

/-- The create endpoint behind pydantic validation: an invalid body is
rejected before the handler runs, leaving the table untouched. -/
def submitChecked (s : Store) (cid : Nat) (input : FinancialDataCreate)
    (freshId : Nat) : Store × Option FinancialData :=
  if validateFinancialData input then
    let res := create_financial_data s cid input freshId
    (res.1, some res.2)
  else (s, none)

/-! ## Read path (`calculate_financial_metrics`) -/

/-- Lexicographic comparison of strings by character code point, as Python
compares `str` values. -/
def lexLe : List Char → List Char → Bool
  | [], _ => true
  | _ :: _, [] => false
  | a :: as, b :: bs =>
    if a.toNat < b.toNat then true
    else if b.toNat < a.toNat then false
    else lexLe as bs

/-- The sort key relation of `sorted(financial_data_list, key=lambda x: str(x.fiscal_year))`. -/
def yearLe (a b : FinancialData) : Prop :=
  lexLe a.fiscal_year.data b.fiscal_year.data = true

instance : DecidableRel yearLe := fun a b =>
  Bool.decEq (lexLe a.fiscal_year.data b.fiscal_year.data) true

/-- The sorted copy of the input list (Python `sorted` is a stable sort by the
string fiscal year; insertion sort by the non-strict key order is stable). -/
def sortByFiscalYear (l : List FinancialData) : List FinancialData :=
  l.insertionSort yearLe

/-- A margin at read time: kept when already stored, else derived when
`total_revenue` is truthy (`if m is None and total_revenue:`). -/
def readMargin (stored : Option ℚ) (num den : ℚ) : Option ℚ :=
  match stored with
  | some m => some m
  | none => if den ≠ 0 then some (num / den) else none

/-- A ratio at read time (`return_on_equity`, `return_on_assets`): derived
only when not stored, the numerator (`net_profit`) is truthy, and the nullable
denominator is truthy (`if r is None and net_profit and denom:`). -/
def readRatio (stored : Option ℚ) (num : ℚ) (den : Option ℚ) : Option ℚ :=
  match stored with
  | some v => some v
  | none =>
    if num ≠ 0 ∧ truthy den then some (num / den.getD 0) else none

/-- `book_value_per_share` at read time: derived only when not stored,
`shareholders_equity` truthy and `number_of_shares` truthy. -/
def readBvps (stored : Option ℚ) (se : Option ℚ) (nos : ℚ) : Option ℚ :=
  match stored with
  | some v => some v
  | none =>
    if truthy se ∧ nos ≠ 0 then some (se.getD 0 / nos) else none

/-- The body of the `for data in sorted_data:` loop of
`calculate_financial_metrics`, for one record and the previous element of the
sorted sequence (`prev_year_data`). -/
def metricStep (prev : Option FinancialData) (data : FinancialData) :
    FinancialMetric :=
  let total_revenue := data.total_revenue
  let net_profit := data.net_profit
  let number_of_shares := data.number_of_shares
  let gross_profit_margin :=
    readMargin data.gross_profit_margin data.gross_profit total_revenue
  let operating_profit_margin :=
    readMargin data.operating_profit_margin data.operating_profit total_revenue
  let net_profit_margin :=
    readMargin data.net_profit_margin net_profit total_revenue
  let return_on_equity :=
    readRatio data.return_on_equity net_profit data.shareholders_equity
  let return_on_assets :=
    readRatio data.return_on_assets net_profit data.total_assets
  let book_value_per_share :=
    readBvps data.book_value_per_share data.shareholders_equity number_of_shares
  let yoyMap : YoyMap :=
    match prev with
    | none =>
      { revenue := data.revenue_yoy_change,
        gross_profit := data.gross_profit_yoy_change,
        operating_profit := data.operating_profit_yoy_change,
        net_profit := data.net_profit_yoy_change,
        free_cash_flow := data.free_cash_flow_yoy_change,
        book_value := data.book_value_yoy_change,
        roa := none, roe := none }
    | some p =>
      { revenue :=
          match data.revenue_yoy_change with
          | some v => some v
          | none => calc_percent_change total_revenue (some p.total_revenue),
        gross_profit :=
          match data.gross_profit_yoy_change with
          | some v => some v
          | none => calc_percent_change data.gross_profit (some p.gross_profit),
        operating_profit :=
          match data.operating_profit_yoy_change with
          | some v => some v
          | none =>
            calc_percent_change data.operating_profit (some p.operating_profit),
        net_profit :=
          match data.net_profit_yoy_change with
          | some v => some v
          | none => calc_percent_change net_profit (some p.net_profit),
        free_cash_flow :=
          match data.free_cash_flow_yoy_change with
          | some v => some v
          | none =>
            calc_percent_change data.free_cash_flow (some p.free_cash_flow),
        book_value :=
          match data.book_value_yoy_change with
          | some v => some v
          | none =>
            match data.book_value with
            | none => none
            | some bv =>
              if truthy p.book_value then
                calc_percent_change bv (some (p.book_value.getD 0))
              else none,
        roa :=
          match return_on_assets with
          | none => none
          | some ra =>
            if truthy p.return_on_assets then
              calc_percent_change ra (some (p.return_on_assets.getD 0))
            else none,
        roe :=
          match return_on_equity with
          | none => none
          | some re =>
            if truthy p.return_on_equity then
              calc_percent_change re (some (p.return_on_equity.getD 0))
            else none }
  { year := data.fiscal_year,
    revenue := total_revenue,
    revenue_yoy_change := data.revenue_yoy_change,
    gross_profit := data.gross_profit,
    gross_profit_margin := gross_profit_margin,
    gross_profit_yoy_change := data.gross_profit_yoy_change,
    operating_profit := data.operating_profit,
    operating_profit_margin := operating_profit_margin,
    operating_profit_yoy_change := data.operating_profit_yoy_change,
    net_profit := net_profit,
    net_profit_margin := net_profit_margin,
    net_profit_yoy_change := data.net_profit_yoy_change,
    free_cash_flow := data.free_cash_flow,
    free_cash_flow_yoy_change := data.free_cash_flow_yoy_change,
    number_of_shares := number_of_shares,
    return_on_equity := return_on_equity,
    return_on_assets := return_on_assets,
    return_on_invested_capital := data.return_on_invested_capital,
    book_value := data.book_value,
    book_value_per_share := book_value_per_share,
    book_value_yoy_change := data.book_value_yoy_change,
    current_ratio := data.current_ratio,
    eps := some data.eps,
    price_high := if data.price_high = 0 then none else some data.price_high,
    price_low := if data.price_low = 0 then none else some data.price_low,
    earning_power := data.earning_power,
    dividends_per_share := some data.dividends_per_share,
    dividend_rate := some data.dividend_rate,
    yoy := yoyMap }

/-- The loop of `calculate_financial_metrics`: `prev_year_data` starts as
`None` and afterwards carries the element just processed. -/
def metricsLoop : Option FinancialData → List FinancialData → List FinancialMetric
  | _, [] => []
  | prev, d :: rest => metricStep prev d :: metricsLoop (some d) rest

/-- `calculate_financial_metrics(financial_data_list, company_name)`. -/
def calculate_financial_metrics (l : List FinancialData) (companyName : String) :
    DashboardResponse :=
  if l.isEmpty then { company := companyName, metrics := [] }
  else { company := companyName, metrics := metricsLoop none (sortByFiscalYear l) }

/-! ## Sample data -/

/-- A stored row with the given key and income figures; every nullable column
is `NULL`. Used to instantiate the general theorems on concrete tables. -/
def mkRow (rid cid : Nat) (fy : String) (tr gp op np nos fcf : ℚ) :
    FinancialData :=
  { id := rid, company_id := cid, fiscal_year := fy,
    prepared_by := none, notes := none,
    total_revenue := tr, revenue_yoy_change := none,
    gross_profit := gp, gross_profit_margin := none,
    gross_profit_yoy_change := none,
    operating_profit := op, operating_profit_margin := none,
    operating_profit_yoy_change := none,
    net_profit := np, net_profit_margin := none, net_profit_yoy_change := none,
    number_of_shares := nos, price_high := 10, price_low := 5, eps := 1,
    earning_power := none, free_cash_flow := fcf,
    free_cash_flow_yoy_change := none,
    return_on_equity := none, return_on_assets := none,
    return_on_invested_capital := none,
    book_value := none, book_value_per_share := none,
    book_value_yoy_change := none,
    current_ratio := none, total_assets := none, total_liabilities := none,
    shareholders_equity := none, current_assets := none,
    current_liabilities := none,
    dividends_per_share := 1, dividend_rate := 2 }

/-- A sample valid request body for fiscal year 2023. -/
def sampleInput : FinancialDataCreate :=
  { fiscal_year := "2023", prepared_by := some "analyst", notes := none,
    total_revenue := 1000000, gross_profit := 500000,
    gross_profit_margin := none,
    operating_profit := 300000, operating_profit_margin := none,
    net_profit := 200000, net_profit_margin := none,
    number_of_shares := 1000000, eps := 1, price_high := 10, price_low := 5,
    earning_power := none, free_cash_flow := 150000,
    return_on_equity := none, return_on_assets := none,
    return_on_invested_capital := none, book_value := none,
    book_value_per_share := none, current_ratio := none,
    dividends_per_share := 1, dividend_rate := 2 }

/-- A stored row with null margins and revenue 10, for read-path checks. -/
def rowC4 : FinancialData := mkRow 11 1 "2021" 10 5 3 2 1 1

/-- A stored row with net profit 0 and shareholders equity 5, ROE not stored. -/
def cexC5 : FinancialData :=
  { mkRow 12 1 "2021" 10 5 3 0 10 2 with shareholders_equity := some 5 }

/-- A stored row with net profit 2, shareholders equity 5, total assets 20,
10 shares, and no stored ratios. -/
def rowC5 : FinancialData :=
  { mkRow 13 1 "2021" 10 5 3 2 10 2 with
    shareholders_equity := some 5, total_assets := some 20 }

/-- A previous-year row: revenue 100, gross profit 50. -/
def rowC6p : FinancialData := mkRow 15 1 "2021" 100 50 30 20 10 2

/-- A current row with a stored revenue YoY of 7 and no other stored YoY. -/
def rowC6 : FinancialData :=
  { mkRow 14 1 "2022" 110 55 33 22 10 2 with revenue_yoy_change := some 7 }

/-- A request body with an out-of-range fiscal year. -/
def badInput : FinancialDataCreate := { sampleInput with fiscal_year := "1800" }

/-! ## Helper lemmas -/

theorem validate_fiscal_year_true_iff (v : String) :
    validate_fiscal_year v = true
      ↔ ∃ y : Int, pyInt? v = some y ∧ 1900 ≤ y ∧ y ≤ 2100 := by
  unfold validate_fiscal_year
  cases h : pyInt? v with
  | none => simp [h]
  | some y => simp [h]

theorem keyMatch_iff {cid : Nat} {fy : String} {r : FinancialData} :
    keyMatch cid fy r = true ↔ r.company_id = cid ∧ r.fiscal_year = fy := by
  simp [keyMatch]

theorem findRecord_none_iff {s : Store} {cid : Nat} {fy : String} :
    findRecord s cid fy = none ↔ ∀ r ∈ s, keyMatch cid fy r = false := by
  unfold findRecord
  rw [List.find?_eq_none]
  simp

theorem keyCount_eq_zero {s : Store} {cid : Nat} {fy : String}
    (h : findRecord s cid fy = none) : keyCount s cid fy = 0 := by
  have hall := findRecord_none_iff.mp h
  unfold keyCount
  rw [List.length_eq_zero, List.filter_eq_nil_iff]
  intro r hr
  simp [hall r hr]

theorem keyCount_pos {s : Store} {cid : Nat} {fy : String} {ex : FinancialData}
    (h : findRecord s cid fy = some ex) : 1 ≤ keyCount s cid fy := by
  have hmem : ex ∈ s := List.mem_of_find?_eq_some h
  have hp : keyMatch cid fy ex = true := List.find?_some h
  have : ex ∈ s.filter (keyMatch cid fy) := List.mem_filter.mpr ⟨hmem, hp⟩
  exact List.length_pos.mpr (List.ne_nil_of_mem this)

theorem keyCount_append_singleton (s : Store) (r : FinancialData)
    (cid : Nat) (fy : String) :
    keyCount (s ++ [r]) cid fy
      = keyCount s cid fy + if keyMatch cid fy r then 1 else 0 := by
  unfold keyCount
  rw [List.filter_append, List.length_append]
  cases h : keyMatch cid fy r <;> simp [List.filter, h]

theorem keyCount_map (s : Store) (g : FinancialData → FinancialData)
    (cid : Nat) (fy : String)
    (h : ∀ r ∈ s, keyMatch cid fy (g r) = keyMatch cid fy r) :
    keyCount (s.map g) cid fy = keyCount s cid fy := by
  unfold keyCount
  induction s with
  | nil => rfl
  | cons a t ih =>
    have ha := h a (List.mem_cons_self a t)
    have ht := fun r hr => h r (List.mem_cons_of_mem a hr)
    simp only [List.map_cons, List.filter_cons, ha]
    cases hka : keyMatch cid fy a <;> simp [hka, ih ht]

theorem findRecord_map (s : Store) (g : FinancialData → FinancialData)
    (cid : Nat) (fy : String)
    (h : ∀ r ∈ s, keyMatch cid fy (g r) = keyMatch cid fy r) :
    findRecord (s.map g) cid fy = (findRecord s cid fy).map g := by
  unfold findRecord
  induction s with
  | nil => rfl
  | cons a t ih =>
    have ha := h a (List.mem_cons_self a t)
    have ht := fun r hr => h r (List.mem_cons_of_mem a hr)
    cases hka : keyMatch cid fy a with
    | true =>
      rw [List.map_cons, List.find?_cons_of_pos _ (by rw [ha]; exact hka),
        List.find?_cons_of_pos _ hka]
      rfl
    | false =>
      rw [List.map_cons, List.find?_cons_of_neg _ (by rw [ha, hka]; simp),
        List.find?_cons_of_neg _ (by rw [hka]; simp)]
      exact ih ht

theorem findRecord_append_none (s : Store) (r : FinancialData)
    (cid : Nat) (fy : String) (h : findRecord s cid fy = none) :
    findRecord (s ++ [r]) cid fy
      = if keyMatch cid fy r then some r else none := by
  unfold findRecord at h ⊢
  induction s with
  | nil =>
    cases hk : keyMatch cid fy r <;> simp [List.find?, hk]
  | cons a t ih =>
    cases hka : keyMatch cid fy a with
    | true =>
      rw [List.find?_cons_of_pos _ hka] at h
      exact absurd h (by simp)
    | false =>
      rw [List.find?_cons_of_neg _ (by rw [hka]; simp)] at h
      rw [List.cons_append, List.find?_cons_of_neg _ (by rw [hka]; simp)]
      exact ih h

theorem keyMatch_replace (s : Store) (ex upd : FinancialData)
    (hids : (s.map FinancialData.id).Nodup) (hmem : ex ∈ s)
    (hc : upd.company_id = ex.company_id)
    (hf : upd.fiscal_year = ex.fiscal_year) (cid : Nat) (fy : String) :
    ∀ r ∈ s, keyMatch cid fy (if r.id == ex.id then upd else r)
      = keyMatch cid fy r := by
  intro r hr
  by_cases h : r.id = ex.id
  · have hre : r = ex := List.inj_on_of_nodup_map hids hr hmem h
    subst hre
    simp [keyMatch, hc, hf]
  · simp [h]

theorem map_id_replace (s : Store) (ex upd : FinancialData)
    (hid : upd.id = ex.id) :
    (s.map (fun r => if r.id == ex.id then upd else r)).map FinancialData.id
      = s.map FinancialData.id := by
  rw [List.map_map]
  apply List.map_congr_left
  intro r hr
  by_cases h : r.id = ex.id
  · simp [Function.comp, h, hid]
  · simp [Function.comp, h]

theorem roundHalfEven_intCast (n : Int) : roundHalfEven (n : ℚ) = n := by
  unfold roundHalfEven
  rw [Int.floor_intCast]
  norm_num

theorem pyRound2_of_mul_eq (q : ℚ) (n : Int) (h : q * 100 = (n : ℚ)) :
    pyRound2 q = (n : ℚ) / 100 := by
  unfold pyRound2
  rw [h, roundHalfEven_intCast]

theorem lexLe_total (x y : List Char) : lexLe x y = true ∨ lexLe y x = true := by
  induction x generalizing y with
  | nil => left; rfl
  | cons a as ih =>
    cases y with
    | nil => right; rfl
    | cons b bs =>
      by_cases h1 : a.toNat < b.toNat
      · left; simp [lexLe, h1]
      · by_cases h2 : b.toNat < a.toNat
        · right; simp [lexLe, h2]
        · rcases ih bs with h | h
          · left; simp [lexLe, h1, h2, h]
          · right; simp [lexLe, h1, h2, h]

theorem lexLe_trans (x : List Char) : ∀ y z : List Char,
    lexLe x y = true → lexLe y z = true → lexLe x z = true := by
  induction x with
  | nil => intro y z h1 h2; rfl
  | cons a as ih =>
    intro y z h1 h2
    cases y with
    | nil => simp [lexLe] at h1
    | cons b bs =>
      cases z with
      | nil => simp [lexLe] at h2
      | cons c cs =>
        simp only [lexLe] at h1 h2 ⊢
        by_cases hab1 : a.toNat < b.toNat
        · by_cases hbc1 : b.toNat < c.toNat
          · have hac : a.toNat < c.toNat := lt_trans hab1 hbc1
            simp [hac]
          · by_cases hbc2 : c.toNat < b.toNat
            · simp [hbc1, hbc2] at h2
            · have hac : a.toNat < c.toNat := by omega
              simp [hac]
        · by_cases hab2 : b.toNat < a.toNat
          · simp [hab1, hab2] at h1
          · by_cases hbc1 : b.toNat < c.toNat
            · have hac : a.toNat < c.toNat := by omega
              simp [hac]
            · by_cases hbc2 : c.toNat < b.toNat
              · simp [hbc1, hbc2] at h2
              · have h1' : lexLe as bs = true := by
                  simpa [hab1, hab2] using h1
                have h2' : lexLe bs cs = true := by
                  simpa [hbc1, hbc2] using h2
                have hac1 : ¬ a.toNat < c.toNat := by omega
                have hac2 : ¬ c.toNat < a.toNat := by omega
                simp [hac1, hac2, ih bs cs h1' h2']

instance : IsTotal FinancialData yearLe :=
  ⟨fun a b => lexLe_total a.fiscal_year.data b.fiscal_year.data⟩

instance : IsTrans FinancialData yearLe :=
  ⟨fun a b c hab hbc =>
    lexLe_trans a.fiscal_year.data b.fiscal_year.data c.fiscal_year.data
      hab hbc⟩

theorem metricsLoop_eq_zipWith (l : List FinancialData) :
    ∀ prev, metricsLoop prev l
      = List.zipWith metricStep (prev :: l.map some) l := by
  induction l with
  | nil => intro prev; rfl
  | cons a t ih =>
    intro prev
    simp only [metricsLoop, List.map_cons, List.zipWith_cons_cons]
    rw [ih (some a)]

theorem metricsLoop_years (l : List FinancialData) :
    ∀ prev, (metricsLoop prev l).map FinancialMetric.year
      = l.map FinancialData.fiscal_year := by
  induction l with
  | nil => intro prev; rfl
  | cons a t ih =>
    intro prev
    simp only [metricsLoop, List.map_cons, ih (some a)]
    rfl

theorem create_financial_data_step (s : Store) (cid f1 : Nat)
    (input : FinancialDataCreate)
    (hinv : ∀ c f, keyCount s c f ≤ 1)
    (hids : (s.map FinancialData.id).Nodup)
    (hfresh : ∀ r ∈ s, r.id ≠ f1) :
    (∀ c f, keyCount (create_financial_data s cid input f1).1 c f ≤ 1)
    ∧ keyCount (create_financial_data s cid input f1).1 cid input.fiscal_year = 1
    ∧ findRecord (create_financial_data s cid input f1).1 cid input.fiscal_year
        = some (create_financial_data s cid input f1).2
    ∧ ((create_financial_data s cid input f1).1.map FinancialData.id).Nodup
    ∧ (∀ r ∈ (create_financial_data s cid input f1).1,
        r.id = f1 ∨ r.id ∈ s.map FinancialData.id)
    ∧ (∀ ex, findRecord s cid input.fiscal_year = some ex →
        (create_financial_data s cid input f1).1.length = s.length
        ∧ (create_financial_data s cid input f1).2.id = ex.id) := by
  cases hfind : findRecord s cid input.fiscal_year with
  | some ex =>
    have hmem : ex ∈ s := List.mem_of_find?_eq_some hfind
    have hkm : keyMatch cid input.fiscal_year ex = true := List.find?_some hfind
    have hexc : ex.company_id = cid := (keyMatch_iff.mp hkm).1
    have hexf : ex.fiscal_year = input.fiscal_year := (keyMatch_iff.mp hkm).2
    simp only [create_financial_data, hfind]
    set upd := setDerivedFields (setBaseFields ex input false)
      (deriveOnWrite input (lookupPreviousData s cid input.fiscal_year)) with hupd
    have hupdid : upd.id = ex.id := rfl
    have hupdc : upd.company_id = ex.company_id := rfl
    have hupdf : upd.fiscal_year = ex.fiscal_year := by
      rw [hexf]; rfl
    have hrepl := fun c f =>
      keyMatch_replace s ex upd hids hmem hupdc hupdf c f
    refine ⟨?_, ?_, ?_, ?_, ?_, ?_⟩
    · intro c f
      rw [keyCount_map s _ c f (hrepl c f)]
      exact hinv c f
    · rw [keyCount_map s _ cid input.fiscal_year (hrepl cid input.fiscal_year)]
      exact Nat.le_antisymm (hinv cid input.fiscal_year) (keyCount_pos hfind)
    · rw [findRecord_map s _ cid input.fiscal_year (hrepl cid input.fiscal_year),
        hfind]
      simp
    · rw [map_id_replace s ex upd hupdid]
      exact hids
    · intro r hr
      rcases List.mem_map.mp hr with ⟨r0, hr0, hr0e⟩
      right
      by_cases h : r0.id = ex.id
      · have : r = upd := by rw [← hr0e]; simp [h]
        rw [this, hupdid, ← h]
        exact List.mem_map_of_mem FinancialData.id hr0
      · have : r = r0 := by rw [← hr0e]; simp [h]
        rw [this]
        exact List.mem_map_of_mem FinancialData.id hr0
    · intro ex' hex'
      have : ex = ex' := by injection hex'
      subst this
      exact ⟨by simp, hupdid⟩
  | none =>
    simp only [create_financial_data, hfind]
    set newRec := newRecordFromInput f1 cid input
      (deriveOnWrite input (lookupPreviousData s cid input.fiscal_year))
      with hnew
    have hnid : newRec.id = f1 := rfl
    have hnc : newRec.company_id = cid := rfl
    have hnf : newRec.fiscal_year = input.fiscal_year := rfl
    have hkmn : keyMatch cid input.fiscal_year newRec = true := by
      simp [keyMatch, hnc, hnf]
    have hzero : keyCount s cid input.fiscal_year = 0 := keyCount_eq_zero hfind
    refine ⟨?_, ?_, ?_, ?_, ?_, ?_⟩
    · intro c f
      rw [keyCount_append_singleton]
      by_cases h : keyMatch c f newRec = true
      · have hc : c = cid := by
          have := (keyMatch_iff.mp h).1
          rw [hnc] at this; exact this.symm
        have hf : f = input.fiscal_year := by
          have := (keyMatch_iff.mp h).2
          rw [hnf] at this; exact this.symm
        subst hc; subst hf
        rw [hzero, h]
        simp
      · rw [if_neg h]
        simpa using hinv c f
    · rw [keyCount_append_singleton, hzero, hkmn]
      simp
    · rw [findRecord_append_none s newRec cid input.fiscal_year hfind, hkmn]
      simp
    · rw [List.map_append]
      rw [List.nodup_append]
      refine ⟨hids, by simp, ?_⟩
      intro a ha hb
      simp only [List.map_cons, List.map_nil, List.mem_singleton] at hb
      rcases List.mem_map.mp ha with ⟨r0, hr0, hr0e⟩
      rw [hb, hnid] at hr0e
      exact hfresh r0 hr0 hr0e
    · intro r hr
      rcases List.mem_append.mp hr with h | h
      · exact Or.inr (List.mem_map_of_mem FinancialData.id h)
      · left
        have : r = newRec := by simpa using h
        rw [this, hnid]
    · intro ex hex
      exact absurd hex (by simp)

/-! ## Claims -/

/-- C1: for every (current, previous) pair, the engine's
`calc_percent_change` (shared by the write and the read path) returns
`round((current - previous) / abs(previous) * 100, 2)` whenever `previous` is
non-null and non-zero, and `None` whenever `previous` is null or zero; being a
total function of its arguments it never raises or divides by zero. -/
theorem C1_yoy_percent_change (current : ℚ) (previous : Option ℚ) :
    (∀ p : ℚ, previous = some p → p ≠ 0 →
      calc_percent_change current previous
        = some (pyRound2 ((current - p) / |p| * 100)))
    ∧ (previous = none ∨ previous = some 0 →
      calc_percent_change current previous = none) := by
  constructor
  · rintro p rfl hp
    simp [calc_percent_change, hp]
  · rintro (rfl | rfl) <;> simp [calc_percent_change]

/-- Witness for C1 at the spec's worked example: revenue 1,000,000 against a
previous 800,000 gives a 25.0 percent change, and a zero previous gives no
value. -/
theorem C1_yoy_percent_change_witness :
    calc_percent_change 1000000 (some 800000) = some 25
      ∧ calc_percent_change 1000000 (some 0) = none := by
  constructor
  · have h := (C1_yoy_percent_change 1000000 (some 800000)).1 800000 rfl
      (by norm_num)
    rw [h, pyRound2_of_mul_eq _ 2500
      (by rw [show |(800000 : ℚ)| = 800000 from abs_of_pos (by norm_num)]
          norm_num)]
    norm_num
  · exact (C1_yoy_percent_change 1000000 (some 0)).2 (Or.inr rfl)

/-- C2: on both write endpoints the previous record is looked up by the
literal string `str(int(fiscal_year) - 1)` for the same company; when no
record exists under that exact key, every persisted YoY field of the written
record is `None` — regardless of what other (e.g. earlier) years the company
has. -/
theorem C2_write_path_previous_year_key (s : Store) (cid freshId : Nat)
    (input : FinancialDataCreate) (y : Int)
    (hy : pyInt? input.fiscal_year = some y)
    (hnone : findRecord s cid (toString (y - 1)) = none) :
    (let r := (create_financial_data s cid input freshId).2
     r.revenue_yoy_change = none ∧ r.gross_profit_yoy_change = none
       ∧ r.operating_profit_yoy_change = none ∧ r.net_profit_yoy_change = none
       ∧ r.free_cash_flow_yoy_change = none ∧ r.book_value_yoy_change = none)
    ∧ (∀ s' r', update_financial_data s cid input.fiscal_year input = some (s', r') →
        r'.revenue_yoy_change = none ∧ r'.gross_profit_yoy_change = none
          ∧ r'.operating_profit_yoy_change = none
          ∧ r'.net_profit_yoy_change = none
          ∧ r'.free_cash_flow_yoy_change = none
          ∧ r'.book_value_yoy_change = none) := by
  have hprev : lookupPreviousData s cid input.fiscal_year = none := by
    unfold lookupPreviousData previousYearKey
    rw [hy]
    simpa using hnone
  constructor
  · simp only [create_financial_data, hprev]
    cases hfind : findRecord s cid input.fiscal_year <;>
      simp [deriveOnWrite, newRecordFromInput, setDerivedFields, setBaseFields]
  · intro s' r' hupd
    unfold update_financial_data at hupd
    rw [hprev] at hupd
    cases hfind : findRecord s cid input.fiscal_year with
    | none => rw [hfind] at hupd; exact absurd hupd (by simp)
    | some dbRec =>
      rw [hfind] at hupd
      simp only [Option.some.injEq, Prod.mk.injEq] at hupd
      have hr' := hupd.2
      subst hr'
      simp [deriveOnWrite, setDerivedFields, setBaseFields]

/-- Witness for C2: the company has a 2020 row but no 2022 row, so a 2023
submit persists no YoY values at all. -/
theorem C2_write_path_previous_year_key_witness :
    (create_financial_data [mkRow 7 1 "2020" 100 50 30 20 10 5] 1
        sampleInput 8).2.revenue_yoy_change = none
    ∧ (create_financial_data [mkRow 7 1 "2020" 100 50 30 20 10 5] 1
        sampleInput 8).2.gross_profit_yoy_change = none
    ∧ (create_financial_data [mkRow 7 1 "2020" 100 50 30 20 10 5] 1
        sampleInput 8).2.operating_profit_yoy_change = none
    ∧ (create_financial_data [mkRow 7 1 "2020" 100 50 30 20 10 5] 1
        sampleInput 8).2.net_profit_yoy_change = none
    ∧ (create_financial_data [mkRow 7 1 "2020" 100 50 30 20 10 5] 1
        sampleInput 8).2.free_cash_flow_yoy_change = none
    ∧ (create_financial_data [mkRow 7 1 "2020" 100 50 30 20 10 5] 1
        sampleInput 8).2.book_value_yoy_change = none := by
  have h := C2_write_path_previous_year_key
    [mkRow 7 1 "2020" 100 50 30 20 10 5] 1 8 sampleInput 2023
    (by decide) (by decide)
  exact h.1

/-- C3: under the table invariants (at most one row per (company_id,
fiscal_year), distinct primary keys, fresh ids for inserts), a submit
preserves at-most-one-row-per-key and leaves exactly one row for the
submitted key; submitting again for the same key (here: the identical input)
does not add a row and returns the same row identity — the second call
overwrites in place. -/
theorem C3_unique_per_company_year (s : Store) (cid f1 f2 : Nat)
    (input : FinancialDataCreate)
    (hinv : ∀ c f, keyCount s c f ≤ 1)
    (hids : (s.map FinancialData.id).Nodup)
    (hf1 : ∀ r ∈ s, r.id ≠ f1) (hf2 : ∀ r ∈ s, r.id ≠ f2) (hne : f1 ≠ f2) :
    (∀ c f, keyCount (create_financial_data s cid input f1).1 c f ≤ 1)
    ∧ keyCount (create_financial_data s cid input f1).1 cid input.fiscal_year
        = 1
    ∧ keyCount (create_financial_data
        (create_financial_data s cid input f1).1 cid input f2).1
        cid input.fiscal_year = 1
    ∧ (create_financial_data
        (create_financial_data s cid input f1).1 cid input f2).2.id
        = (create_financial_data s cid input f1).2.id
    ∧ (create_financial_data
        (create_financial_data s cid input f1).1 cid input f2).1.length
        = (create_financial_data s cid input f1).1.length := by
  obtain ⟨h1, h2, h3, h4, h5, _⟩ :=
    create_financial_data_step s cid f1 input hinv hids hf1
  have hf2' : ∀ r ∈ (create_financial_data s cid input f1).1, r.id ≠ f2 := by
    intro r hr
    rcases h5 r hr with h | h
    · rw [h]; exact hne
    · rcases List.mem_map.mp h with ⟨r0, hr0, hr0e⟩
      rw [← hr0e]
      exact hf2 r0 hr0
  obtain ⟨g1, g2, g3, g4, g5, g6⟩ :=
    create_financial_data_step (create_financial_data s cid input f1).1
      cid f2 input h1 h4 hf2'
  obtain ⟨glen, gid⟩ := g6 (create_financial_data s cid input f1).2 h3
  exact ⟨h1, h2, g2, gid, glen⟩

/-- Witness for C3: submitting the sample body twice for company 1 into an
empty table leaves exactly one row for ("2023", company 1), no extra row, and
the second call returns the same row id. -/
theorem C3_unique_per_company_year_witness :
    keyCount (create_financial_data [] 1 sampleInput 1).1 1 "2023" = 1
    ∧ keyCount (create_financial_data
        (create_financial_data [] 1 sampleInput 1).1 1 sampleInput 2).1
        1 "2023" = 1
    ∧ (create_financial_data
        (create_financial_data [] 1 sampleInput 1).1 1 sampleInput 2).2.id
        = (create_financial_data [] 1 sampleInput 1).2.id
    ∧ (create_financial_data
        (create_financial_data [] 1 sampleInput 1).1 1 sampleInput 2).1.length
        = (create_financial_data [] 1 sampleInput 1).1.length := by
  have h := C3_unique_per_company_year [] 1 1 2 sampleInput
    (fun c f => Nat.zero_le 1) (by simp) (by simp) (by simp) (by decide)
  exact ⟨h.2.1, h.2.2.1, h.2.2.2.1, h.2.2.2.2⟩

/-- C4: the write path sets each of the three margins to the corresponding
profit figure divided by total_revenue exactly when total_revenue > 0 and
leaves them unset otherwise; and reading back any record whose stored margin
is either unset or already equal to that quotient (which holds for every
record this system writes) yields the quotient when total_revenue > 0 and an
unset margin when total_revenue = 0 and nothing is stored. -/
theorem C4_margins (input : FinancialDataCreate) (prev : Option FinancialData)
    (prevOpt : Option FinancialData) (data : FinancialData) :
    ((input.total_revenue > 0 →
        (deriveOnWrite input prev).gross_profit_margin
          = some (input.gross_profit / input.total_revenue)
        ∧ (deriveOnWrite input prev).operating_profit_margin
          = some (input.operating_profit / input.total_revenue)
        ∧ (deriveOnWrite input prev).net_profit_margin
          = some (input.net_profit / input.total_revenue))
      ∧ (¬ input.total_revenue > 0 →
        (deriveOnWrite input prev).gross_profit_margin = none
        ∧ (deriveOnWrite input prev).operating_profit_margin = none
        ∧ (deriveOnWrite input prev).net_profit_margin = none))
    ∧ (data.total_revenue > 0 →
        ((data.gross_profit_margin = none
            ∨ data.gross_profit_margin
              = some (data.gross_profit / data.total_revenue)) →
          (metricStep prevOpt data).gross_profit_margin
            = some (data.gross_profit / data.total_revenue))
        ∧ ((data.operating_profit_margin = none
            ∨ data.operating_profit_margin
              = some (data.operating_profit / data.total_revenue)) →
          (metricStep prevOpt data).operating_profit_margin
            = some (data.operating_profit / data.total_revenue))
        ∧ ((data.net_profit_margin = none
            ∨ data.net_profit_margin
              = some (data.net_profit / data.total_revenue)) →
          (metricStep prevOpt data).net_profit_margin
            = some (data.net_profit / data.total_revenue)))
    ∧ (data.total_revenue = 0 →
        (data.gross_profit_margin = none →
          (metricStep prevOpt data).gross_profit_margin = none)
        ∧ (data.operating_profit_margin = none →
          (metricStep prevOpt data).operating_profit_margin = none)
        ∧ (data.net_profit_margin = none →
          (metricStep prevOpt data).net_profit_margin = none)) := by
  refine ⟨⟨?_, ?_⟩, ?_, ?_⟩
  · intro htr
    cases prev <;> simp [deriveOnWrite, htr]
  · intro htr
    cases prev <;> simp [deriveOnWrite, htr]
  · intro htr
    have e1 : (metricStep prevOpt data).gross_profit_margin
        = readMargin data.gross_profit_margin data.gross_profit
            data.total_revenue := rfl
    have e2 : (metricStep prevOpt data).operating_profit_margin
        = readMargin data.operating_profit_margin data.operating_profit
            data.total_revenue := rfl
    have e3 : (metricStep prevOpt data).net_profit_margin
        = readMargin data.net_profit_margin data.net_profit
            data.total_revenue := rfl
    refine ⟨?_, ?_, ?_⟩ <;> rintro (h | h) <;>
      simp [e1, e2, e3, readMargin, h, ne_of_gt htr]
  · intro htr
    have e1 : (metricStep prevOpt data).gross_profit_margin
        = readMargin data.gross_profit_margin data.gross_profit
            data.total_revenue := rfl
    have e2 : (metricStep prevOpt data).operating_profit_margin
        = readMargin data.operating_profit_margin data.operating_profit
            data.total_revenue := rfl
    have e3 : (metricStep prevOpt data).net_profit_margin
        = readMargin data.net_profit_margin data.net_profit
            data.total_revenue := rfl
    refine ⟨?_, ?_, ?_⟩ <;> intro h <;>
      simp [e1, e2, e3, readMargin, h, htr]

/-- Witness for C4: the sample body (revenue 1,000,000, gross profit 500,000)
gets margin 500000/1000000 on write, and the stored row with revenue 10 and
gross profit 5 gets margin 5/10 when read. -/
theorem C4_margins_witness :
    (deriveOnWrite sampleInput none).gross_profit_margin
      = some ((500000 : ℚ) / 1000000)
    ∧ (metricStep none rowC4).gross_profit_margin = some ((5 : ℚ) / 10) := by
  refine ⟨((C4_margins sampleInput none none rowC4).1.1 (by decide)).1, ?_⟩
  exact ((C4_margins sampleInput none none rowC4).2.1 (by decide)).1
    (Or.inl rfl)

/-- C5 as stated fails on the code: the read path derives ROE only when
`net_profit` is truthy (non-zero), not merely present. `cexC5` has stored ROE
null, net_profit 0 (present), shareholders_equity 5 (present and non-zero),
yet the output ROE is None instead of 0/5. -/
theorem C5_read_ratios_counterexample :
    (metricStep none cexC5).return_on_equity = none
    ∧ (metricStep none cexC5).return_on_equity ≠ some (cexC5.net_profit / 5)
    ∧ cexC5.return_on_equity = none
    ∧ cexC5.net_profit = 0
    ∧ cexC5.shareholders_equity = some 5 := by
  refine ⟨?_, ?_, rfl, ?_, rfl⟩
  · have e : (metricStep none cexC5).return_on_equity
        = readRatio cexC5.return_on_equity cexC5.net_profit
            cexC5.shareholders_equity := rfl
    rw [e]
    simp [readRatio, cexC5, mkRow]
  · have e : (metricStep none cexC5).return_on_equity
        = readRatio cexC5.return_on_equity cexC5.net_profit
            cexC5.shareholders_equity := rfl
    rw [e]
    simp [readRatio, cexC5, mkRow]
  · rfl

/-- C5 amended: the read path derives return_on_equity = net_profit /
shareholders_equity when the stored value is null, net_profit is non-zero,
and shareholders_equity is present and non-zero; return_on_assets likewise
with total_assets; book_value_per_share = shareholders_equity /
number_of_shares when the stored value is null, shareholders_equity is
present and non-zero, and number_of_shares is non-zero. -/
theorem C5_read_ratios_derivation (d : FinancialData)
    (prev : Option FinancialData) :
    (∀ se : ℚ, d.return_on_equity = none → d.net_profit ≠ 0 →
      d.shareholders_equity = some se → se ≠ 0 →
      (metricStep prev d).return_on_equity = some (d.net_profit / se))
    ∧ (∀ ta : ℚ, d.return_on_assets = none → d.net_profit ≠ 0 →
      d.total_assets = some ta → ta ≠ 0 →
      (metricStep prev d).return_on_assets = some (d.net_profit / ta))
    ∧ (∀ se : ℚ, d.book_value_per_share = none → d.shareholders_equity = some se →
      se ≠ 0 → d.number_of_shares ≠ 0 →
      (metricStep prev d).book_value_per_share
        = some (se / d.number_of_shares)) := by
  refine ⟨?_, ?_, ?_⟩
  · intro se h1 h2 h3 h4
    have e : (metricStep prev d).return_on_equity
        = readRatio d.return_on_equity d.net_profit d.shareholders_equity := rfl
    rw [e, h1, h3]
    simp [readRatio, truthy, h2, h4]
  · intro ta h1 h2 h3 h4
    have e : (metricStep prev d).return_on_assets
        = readRatio d.return_on_assets d.net_profit d.total_assets := rfl
    rw [e, h1, h3]
    simp [readRatio, truthy, h2, h4]
  · intro se h1 h2 h3 h4
    have e : (metricStep prev d).book_value_per_share
        = readBvps d.book_value_per_share d.shareholders_equity
            d.number_of_shares := rfl
    rw [e, h1, h2]
    simp [readBvps, truthy, h3, h4]

/-- Witness for the amended C5 on a concrete row: net profit 2, equity 5,
assets 20, 10 shares give ROE 2/5, ROA 2/20, book value per share 5/10. -/
theorem C5_read_ratios_derivation_witness :
    (metricStep none rowC5).return_on_equity = some ((2 : ℚ) / 5)
    ∧ (metricStep none rowC5).return_on_assets = some ((2 : ℚ) / 20)
    ∧ (metricStep none rowC5).book_value_per_share = some ((5 : ℚ) / 10) := by
  have h := C5_read_ratios_derivation rowC5 none
  exact ⟨h.1 5 rfl (by decide) rfl (by decide),
    h.2.1 20 rfl (by decide) rfl (by decide),
    h.2.2 5 rfl rfl (by decide) (by decide)⟩

/-- C6: in the dashboard yoy mapping, a YoY value is recomputed (from the
sequence-previous record, with the shared `calc_percent_change` formula) only
when the stored field is null; a stored non-null value is carried unchanged;
with no previous record the stored values are carried as they are. -/
theorem C6_read_yoy_only_when_null (data p : FinancialData) :
    ((∀ v, data.revenue_yoy_change = some v →
        (metricStep (some p) data).yoy.revenue = some v)
      ∧ (data.revenue_yoy_change = none →
        (metricStep (some p) data).yoy.revenue
          = calc_percent_change data.total_revenue (some p.total_revenue)))
    ∧ ((∀ v, data.gross_profit_yoy_change = some v →
        (metricStep (some p) data).yoy.gross_profit = some v)
      ∧ (data.gross_profit_yoy_change = none →
        (metricStep (some p) data).yoy.gross_profit
          = calc_percent_change data.gross_profit (some p.gross_profit)))
    ∧ ((∀ v, data.operating_profit_yoy_change = some v →
        (metricStep (some p) data).yoy.operating_profit = some v)
      ∧ (data.operating_profit_yoy_change = none →
        (metricStep (some p) data).yoy.operating_profit
          = calc_percent_change data.operating_profit
              (some p.operating_profit)))
    ∧ ((∀ v, data.net_profit_yoy_change = some v →
        (metricStep (some p) data).yoy.net_profit = some v)
      ∧ (data.net_profit_yoy_change = none →
        (metricStep (some p) data).yoy.net_profit
          = calc_percent_change data.net_profit (some p.net_profit)))
    ∧ ((∀ v, data.free_cash_flow_yoy_change = some v →
        (metricStep (some p) data).yoy.free_cash_flow = some v)
      ∧ (data.free_cash_flow_yoy_change = none →
        (metricStep (some p) data).yoy.free_cash_flow
          = calc_percent_change data.free_cash_flow
              (some p.free_cash_flow)))
    ∧ ((∀ v, data.book_value_yoy_change = some v →
        (metricStep (some p) data).yoy.book_value = some v)
      ∧ (∀ bv, data.book_value_yoy_change = none → data.book_value = some bv →
        truthy p.book_value = true →
        (metricStep (some p) data).yoy.book_value
          = calc_percent_change bv (some (p.book_value.getD 0))))
    ∧ ((metricStep none data).yoy.revenue = data.revenue_yoy_change
      ∧ (metricStep none data).yoy.gross_profit = data.gross_profit_yoy_change
      ∧ (metricStep none data).yoy.operating_profit
          = data.operating_profit_yoy_change
      ∧ (metricStep none data).yoy.net_profit = data.net_profit_yoy_change
      ∧ (metricStep none data).yoy.free_cash_flow
          = data.free_cash_flow_yoy_change
      ∧ (metricStep none data).yoy.book_value
          = data.book_value_yoy_change) := by
  have e1 : (metricStep (some p) data).yoy.revenue
      = match data.revenue_yoy_change with
        | some v => some v
        | none => calc_percent_change data.total_revenue
            (some p.total_revenue) := rfl
  have e2 : (metricStep (some p) data).yoy.gross_profit
      = match data.gross_profit_yoy_change with
        | some v => some v
        | none => calc_percent_change data.gross_profit
            (some p.gross_profit) := rfl
  have e3 : (metricStep (some p) data).yoy.operating_profit
      = match data.operating_profit_yoy_change with
        | some v => some v
        | none => calc_percent_change data.operating_profit
            (some p.operating_profit) := rfl
  have e4 : (metricStep (some p) data).yoy.net_profit
      = match data.net_profit_yoy_change with
        | some v => some v
        | none => calc_percent_change data.net_profit
            (some p.net_profit) := rfl
  have e5 : (metricStep (some p) data).yoy.free_cash_flow
      = match data.free_cash_flow_yoy_change with
        | some v => some v
        | none => calc_percent_change data.free_cash_flow
            (some p.free_cash_flow) := rfl
  have e6 : (metricStep (some p) data).yoy.book_value
      = match data.book_value_yoy_change with
        | some v => some v
        | none =>
          match data.book_value with
          | none => none
          | some bv =>
            if truthy p.book_value then
              calc_percent_change bv (some (p.book_value.getD 0))
            else none := rfl
  refine ⟨⟨?_, ?_⟩, ⟨?_, ?_⟩, ⟨?_, ?_⟩, ⟨?_, ?_⟩, ⟨?_, ?_⟩, ⟨?_, ?_⟩,
    rfl, rfl, rfl, rfl, rfl, rfl⟩
  · intro v h; rw [e1, h]
  · intro h; rw [e1, h]
  · intro v h; rw [e2, h]
  · intro h; rw [e2, h]
  · intro v h; rw [e3, h]
  · intro h; rw [e3, h]
  · intro v h; rw [e4, h]
  · intro h; rw [e4, h]
  · intro v h; rw [e5, h]
  · intro h; rw [e5, h]
  · intro v h; rw [e6, h]
  · intro bv h1 h2 h3
    rw [e6, h1, h2]
    simp [h3]

/-- Witness for C6: against the 2021 row, the stored revenue YoY 7 is kept,
while the unset gross-profit YoY is recomputed as 10 percent (55 vs 50). -/
theorem C6_read_yoy_only_when_null_witness :
    (metricStep (some rowC6p) rowC6).yoy.revenue = some 7
    ∧ (metricStep (some rowC6p) rowC6).yoy.gross_profit = some 10 := by
  have h := C6_read_yoy_only_when_null rowC6 rowC6p
  refine ⟨h.1.1 7 rfl, ?_⟩
  rw [h.2.1.2 rfl]
  show calc_percent_change 55 (some 50) = some 10
  simp only [calc_percent_change]
  rw [if_pos (by norm_num)]
  rw [pyRound2_of_mul_eq _ 1000
    (by rw [show |(50 : ℚ)| = 50 from abs_of_pos (by norm_num)]; norm_num)]
  norm_num

/-- C7: the flat per-field YoY columns of each dashboard metric always equal
the values stored on the record (possibly null); read-time YoY recomputation
lands only in the auxiliary yoy mapping, never in the flat fields. -/
theorem C7_flat_yoy_columns_are_stored (prev : Option FinancialData)
    (data : FinancialData) :
    (metricStep prev data).revenue_yoy_change = data.revenue_yoy_change
    ∧ (metricStep prev data).gross_profit_yoy_change
        = data.gross_profit_yoy_change
    ∧ (metricStep prev data).operating_profit_yoy_change
        = data.operating_profit_yoy_change
    ∧ (metricStep prev data).net_profit_yoy_change
        = data.net_profit_yoy_change
    ∧ (metricStep prev data).free_cash_flow_yoy_change
        = data.free_cash_flow_yoy_change
    ∧ (metricStep prev data).book_value_yoy_change
        = data.book_value_yoy_change :=
  ⟨rfl, rfl, rfl, rfl, rfl, rfl⟩

/-- C8: the dashboard reorders the records by ascending lexicographic string
comparison of fiscal_year (the sorted list is a permutation of the input,
Sorted under the string order, and the output years follow it), and each
record is paired with the element immediately preceding it in that sorted
order as its previous record (the zipWith shape); on years "9" and "10" the
order is the string order — "10" before "9" — not the numeric one. -/
theorem C8_dashboard_sort_and_previous (l : List FinancialData)
    (cname : String) :
    (calculate_financial_metrics l cname).metrics
      = List.zipWith metricStep (none :: (sortByFiscalYear l).map some)
          (sortByFiscalYear l)
    ∧ (sortByFiscalYear l).Perm l
    ∧ List.Sorted yearLe (sortByFiscalYear l)
    ∧ (calculate_financial_metrics l cname).metrics.map FinancialMetric.year
        = (sortByFiscalYear l).map FinancialData.fiscal_year
    ∧ (sortByFiscalYear
          [mkRow 1 1 "9" 1 1 1 1 1 1, mkRow 2 1 "10" 1 1 1 1 1 1]).map
          FinancialData.fiscal_year = ["10", "9"] := by
  refine ⟨?_, List.perm_insertionSort yearLe l,
    List.sorted_insertionSort yearLe l, ?_, by decide⟩
  · cases l with
    | nil => rfl
    | cons a t =>
      simp only [calculate_financial_metrics, List.isEmpty_cons,
        Bool.false_eq_true, if_false]
      exact metricsLoop_eq_zipWith (sortByFiscalYear (a :: t)) none
  · cases l with
    | nil => rfl
    | cons a t =>
      simp only [calculate_financial_metrics, List.isEmpty_cons,
        Bool.false_eq_true, if_false]
      exact metricsLoop_years (sortByFiscalYear (a :: t)) none

/-- C9: an update keeps the stored record's fiscal_year (the path parameter
record's year; the fiscal_year inside the payload is skipped by the copy
loop), while the other base fields are overwritten from the input; the
updated row is in the resulting table. -/
theorem C9_update_fiscal_year_immutable (s : Store) (cid : Nat) (fy : String)
    (input : FinancialDataCreate) (ex : FinancialData)
    (hex : findRecord s cid fy = some ex) :
    ∃ s' r, update_financial_data s cid fy input = some (s', r)
      ∧ r.fiscal_year = ex.fiscal_year
      ∧ r ∈ s'
      ∧ r.prepared_by = input.prepared_by
      ∧ r.notes = input.notes
      ∧ r.total_revenue = input.total_revenue
      ∧ r.gross_profit = input.gross_profit
      ∧ r.operating_profit = input.operating_profit
      ∧ r.net_profit = input.net_profit
      ∧ r.number_of_shares = input.number_of_shares
      ∧ r.eps = input.eps
      ∧ r.price_high = input.price_high
      ∧ r.price_low = input.price_low
      ∧ r.earning_power = input.earning_power
      ∧ r.free_cash_flow = input.free_cash_flow
      ∧ r.return_on_equity = input.return_on_equity
      ∧ r.return_on_assets = input.return_on_assets
      ∧ r.return_on_invested_capital = input.return_on_invested_capital
      ∧ r.book_value = input.book_value
      ∧ r.book_value_per_share = input.book_value_per_share
      ∧ r.current_ratio = input.current_ratio
      ∧ r.dividends_per_share = input.dividends_per_share
      ∧ r.dividend_rate = input.dividend_rate := by
  have hmem : ex ∈ s := List.mem_of_find?_eq_some hex
  simp only [update_financial_data, hex]
  refine ⟨_, _, rfl, rfl, ?_, rfl, rfl, rfl, rfl, rfl, rfl, rfl, rfl, rfl,
    rfl, rfl, rfl, rfl, rfl, rfl, rfl, rfl, rfl, rfl, rfl⟩
  exact List.mem_map.mpr ⟨ex, hmem, by simp⟩

/-- Witness for C9: updating the 2022 row with the sample 2023 body keeps
fiscal year "2022" while taking the body's revenue. -/
theorem C9_update_fiscal_year_immutable_witness :
    (update_financial_data [mkRow 3 1 "2022" 100 50 30 20 10 5] 1 "2022"
        sampleInput).map (fun x => x.2.fiscal_year) = some "2022"
    ∧ (update_financial_data [mkRow 3 1 "2022" 100 50 30 20 10 5] 1 "2022"
        sampleInput).map (fun x => x.2.total_revenue) = some 1000000 := by
  obtain ⟨s', r, h1, h2, hmem, hpb, hnt, htr, hrest⟩ :=
    C9_update_fiscal_year_immutable [mkRow 3 1 "2022" 100 50 30 20 10 5] 1
      "2022" sampleInput (mkRow 3 1 "2022" 100 50 30 20 10 5) (by decide)
  rw [h1]
  constructor
  · simp only [Option.map_some']
    rw [h2]
    rfl
  · simp only [Option.map_some']
    rw [htr]
    rfl

/-- C10: a submit is rejected by validation exactly when the fiscal year does
not parse as an integer or parses outside 1900..2100, or total_revenue ≤ 0,
or number_of_shares ≤ 0; on rejection the table is unchanged. -/
theorem C10_validation_iff (s : Store) (cid freshId : Nat)
    (input : FinancialDataCreate) :
    ((submitChecked s cid input freshId).2 = none ↔
      (pyInt? input.fiscal_year = none
        ∨ (∃ y : Int, pyInt? input.fiscal_year = some y
            ∧ (y < 1900 ∨ 2100 < y))
        ∨ input.total_revenue ≤ 0
        ∨ input.number_of_shares ≤ 0))
    ∧ ((submitChecked s cid input freshId).2 = none →
      (submitChecked s cid input freshId).1 = s) := by
  constructor
  · constructor
    · intro hnone
      by_cases hv : validateFinancialData input = true
      · exfalso
        unfold submitChecked at hnone
        rw [if_pos hv] at hnone
        simp at hnone
      · by_cases h1 : validate_fiscal_year input.fiscal_year = true
        · by_cases h2 : (0 : ℚ) < input.total_revenue
          · have h3 : ¬ (0 : ℚ) < input.number_of_shares := by
              intro h3
              apply hv
              unfold validateFinancialData
              simp [h1, h2, h3]
            exact Or.inr (Or.inr (Or.inr (not_lt.mp h3)))
          · exact Or.inr (Or.inr (Or.inl (not_lt.mp h2)))
        · cases hfy : pyInt? input.fiscal_year with
          | none => exact Or.inl rfl
          | some y =>
            right; left
            refine ⟨y, rfl, ?_⟩
            by_contra hcon
            push_neg at hcon
            exact h1 ((validate_fiscal_year_true_iff _).mpr
              ⟨y, hfy, by omega, by omega⟩)
    · intro hrhs
      have hv : validateFinancialData input = false := by
        cases hvv : validateFinancialData input with
        | false => rfl
        | true =>
          exfalso
          unfold validateFinancialData at hvv
          simp only [Bool.and_eq_true, decide_eq_true_eq] at hvv
          obtain ⟨⟨hfy, htr⟩, hnos⟩ := hvv
          obtain ⟨y', hy', hr1, hr2⟩ :=
            (validate_fiscal_year_true_iff _).mp hfy
          rcases hrhs with h | ⟨y, hy, hrange⟩ | h | h
          · rw [h] at hy'
            exact Option.noConfusion hy'
          · rw [hy] at hy'
            injection hy' with he
            omega
          · exact absurd h (not_le.mpr htr)
          · exact absurd h (not_le.mpr hnos)
      unfold submitChecked
      rw [if_neg (by simp [hv])]
  · intro hnone
    unfold submitChecked at hnone ⊢
    by_cases hv : validateFinancialData input = true
    · rw [if_pos hv] at hnone
      simp at hnone
    · rw [if_neg hv]

/-- Witness for C10: fiscal year "1800" is out of range, so the submit is
rejected and the empty table stays empty. -/
theorem C10_validation_iff_witness :
    (submitChecked [] 1 badInput 5).2 = none
    ∧ (submitChecked [] 1 badInput 5).1 = [] := by
  have h := C10_validation_iff [] 1 5 badInput
  have hnone : (submitChecked [] 1 badInput 5).2 = none :=
    h.1.mpr (Or.inr (Or.inl ⟨1800, by decide, Or.inl (by decide)⟩))
  exact ⟨hnone, h.2 hnone⟩

end FinancialAnalysis
